import Mathlib

/-!
Verification of the client-side "list + detail + mutate + refresh" scripts of
this repository: the mail client (`project3/mail/static/mail/inbox.js`), the
social-feed client, and the finance dashboard
(`project5/static/js/dashboard.js`).  Each browser handler is embedded as a
pure Lean function from its inputs (DOM values, cookie string, server
response outcome) to the observable effects the JavaScript produces: the HTTP
requests it issues, the alert it shows, and the resulting view state.
-/

namespace CSFifty

/-- Characters removed by JavaScript `String.prototype.trim` (the ASCII
whitespace subset, which is all that occurs in this code base). -/
def isJsWS (c : Char) : Bool :=
  c = ' ' || c = '\t' || c = '\n' || c = '\x0b' || c = '\x0c' || c = '\r'

/-- Remove trailing JS whitespace from a character list. -/
def trimRight : List Char → List Char
  | [] => []
  | c :: l =>
    match trimRight l with
    | [] => if isJsWS c then [] else [c]
    | r => c :: r

/-- Remove leading JS whitespace from a character list. -/
def trimLeft (l : List Char) : List Char :=
  l.dropWhile (fun c => isJsWS c)

/-- JavaScript `String.prototype.trim` on a character list. -/
def trimChars (l : List Char) : List Char :=
  trimRight (trimLeft l)

/-- JavaScript `String.prototype.trim` on a Lean `String`. -/
def jsTrim (s : String) : String :=
  ⟨trimChars s.data⟩

/-- JavaScript `String.prototype.toLowerCase` (ASCII, which is all that the
subject-normalisation in `inbox.js` relies on). -/
def lowerChars (l : List Char) : List Char :=
  l.map Char.toLower

/-- `document.cookie` scan of the regular expression `/csrftoken=([^;]+)/`
from `getCSRFToken`: find the first position where `csrftoken=` matches and
at least one non-`;` character follows, and capture up to the next `;`. -/
def findCSRF : List Char → Option (List Char)
  | [] => none
  | c :: rest =>
    if ("csrftoken=".data).isPrefixOf (c :: rest) then
      let tok := ((c :: rest).drop 10).takeWhile (fun d => d ≠ ';')
      if tok = [] then findCSRF rest else some tok
    else findCSRF rest

/-- `getCSRFToken` from the feed client: the captured group of the first
regex match, or the empty string when `document.cookie` has no match. -/
def getCSRFToken (cookie : String) : String :=
  match findCSRF cookie.data with
  | some tok => ⟨tok⟩
  | none => ""

/-- Shallow embedding of the `JSON.stringify` payloads the clients send. -/
inductive Body where
  | emailFields (recipients subject body : String)
  | readFlag (read : Bool)
  | archivedFlag (archived : Bool)
  | contentField (content : String)
  | toggleLikeFlag
  | empty
deriving Repr, DecidableEq

/-- An HTTP request as issued by `fetch`: method, URL, the explicit headers
passed in the init object, and the body. -/
structure Request where
  method : String
  url : String
  headers : List (String × String)
  body : Body
deriving Repr, DecidableEq

/-- A request carries the anti-forgery header with value `v`. -/
def hasCSRFHeader (r : Request) (v : String) : Prop :=
  ("X-CSRFToken", v) ∈ r.headers

instance (r : Request) (v : String) : Decidable (hasCSRFHeader r v) := by
  unfold hasCSRFHeader; infer_instance

/-- Outcome of one `fetch` round-trip whose success body parses to `α`:
`ok` is a success status with parsed data, `httpErr` a non-success status
whose JSON body has an optional `error` string field, and `exn` a transport
or parse failure surfacing a JavaScript error message. -/
inductive RespOutcome (α : Type) where
  | ok (data : α)
  | httpErr (errorField : Option String)
  | exn (msg : String)
deriving Repr, DecidableEq

end CSFifty

namespace Mail

open CSFifty

/-- A full email object as returned by `GET /emails/{id}`. -/
structure EmailData where
  id : Nat
  sender : String
  recipients : List String
  subject : String
  body : String
  timestamp : String
  read : Bool
  archived : Bool
deriving Repr, DecidableEq

/-- The `fetch('/emails', {method: 'POST', ...})` call in `send_email`:
note that the init object passes no headers. -/
def send_email_request (recipients subject body : String) : Request :=
  { method := "POST"
    url := "/emails"
    headers := []
    body := Body.emailFields recipients subject body }

/-- The `fetch` call in `mark_read`: a PUT with `{read: true}` and no
headers. -/
def mark_read_request (emailId : Nat) : Request :=
  { method := "PUT"
    url := "/emails/" ++ toString emailId
    headers := []
    body := Body.readFlag true }

/-- The `fetch` call in `toggle_archive`: a PUT with `{archived}` and no
headers. -/
def toggle_archive_request (emailId : Nat) (archived : Bool) : Request :=
  { method := "PUT"
    url := "/emails/" ++ toString emailId
    headers := []
    body := Body.archivedFlag archived }

/-- The collection read issued by `load_mailbox`. -/
def mailbox_request (mailbox : String) : Request :=
  { method := "GET"
    url := "/emails/" ++ mailbox
    headers := []
    body := Body.empty }

/-- The detail read issued by `view_email`. -/
def email_request (emailId : Nat) : Request :=
  { method := "GET"
    url := "/emails/" ++ toString emailId
    headers := []
    body := Body.empty }

/-- Result of running `mark_read`: the PUT it issues and the alert it shows.
Its promise chain ends in `.catch(() => {})`, so every outcome — success,
error status or transport failure — produces no alert. -/
def mark_read_result (emailId : Nat) (_resp : RespOutcome Unit) :
    List Request × Option (String × String) :=
  ([mark_read_request emailId], none)

/-- Observable result of `toggle_archive` after its response arrives. -/
structure ToggleArchiveOutcome where
  requests : List Request
  alert : Option (String × String)
  reloadMailbox : Option String
deriving Repr, DecidableEq

/-- `toggle_archive`: issue the PUT; on a success status reload the mailbox
implied by the new archived state; otherwise throw
`'Unable to update archive state.'` (the response body is never parsed, so
its `error` field is ignored) and surface the message as a danger alert. -/
def toggle_archive_result (emailId : Nat) (archived : Bool)
    (resp : RespOutcome Unit) : ToggleArchiveOutcome :=
  let m := if archived then "archive" else "inbox"
  match resp with
  | .ok _ =>
      { requests := [toggle_archive_request emailId archived, mailbox_request m]
        alert := none
        reloadMailbox := some m }
  | .httpErr _ =>
      { requests := [toggle_archive_request emailId archived]
        alert := some ("Unable to update archive state.", "danger")
        reloadMailbox := none }
  | .exn msg =>
      { requests := [toggle_archive_request emailId archived]
        alert := some (msg, "danger")
        reloadMailbox := none }

/-- Observable result of `view_email`. -/
structure ViewEmailOutcome where
  requests : List Request
  alert : Option (String × String)
  detail : Option EmailData
deriving Repr, DecidableEq

/-- `view_email`: issue the detail GET; on success render the detail and, only
when `data.read` is false, call `mark_read`; on failure surface
`data.error || 'Unable to load email.'` as a danger alert. -/
def view_email_result (emailId : Nat) (resp : RespOutcome EmailData) :
    ViewEmailOutcome :=
  match resp with
  | .ok data =>
      { requests :=
          email_request emailId ::
            (if data.read then [] else [mark_read_request emailId])
        alert := none
        detail := some data }
  | .httpErr e =>
      { requests := [email_request emailId]
        alert := some (e.getD "Unable to load email.", "danger")
        detail := none }
  | .exn msg =>
      { requests := [email_request emailId]
        alert := some (msg, "danger")
        detail := none }

/-- Observable result of `load_mailbox` after its response arrives. -/
structure MailboxOutcome where
  requests : List Request
  alert : Option (String × String)
  emptyState : Bool
  rows : List EmailData
deriving Repr, DecidableEq

/-- `load_mailbox`: issue the collection GET; on success render either the
empty-state message or one row per email in server order; on failure surface
`data.error || 'Unable to load mailbox.'` through `show_alert` (which
defaults the severity to `'info'`). -/
def load_mailbox_result (mailbox : String) (resp : RespOutcome (List EmailData)) :
    MailboxOutcome :=
  match resp with
  | .ok emails =>
      if emails.length = 0 then
        { requests := [mailbox_request mailbox], alert := none
          emptyState := true, rows := [] }
      else
        { requests := [mailbox_request mailbox], alert := none
          emptyState := false, rows := emails }
  | .httpErr e =>
      { requests := [mailbox_request mailbox]
        alert := some (e.getD "Unable to load mailbox.", "info")
        emptyState := false, rows := [] }
  | .exn msg =>
      { requests := [mailbox_request mailbox]
        alert := some (msg, "info")
        emptyState := false, rows := [] }

/-- Observable result of `send_email` after its response arrives. -/
structure SendEmailOutcome where
  requests : List Request
  alert : Option (String × String)
  reloadMailbox : Option String
deriving Repr, DecidableEq

/-- `send_email`: POST the composed fields (recipients trimmed); on success
show a success alert and load the sent mailbox; on failure surface
`data.error || 'Unable to send email.'` as a danger alert. -/
def send_email_result (recipients subject body : String)
    (resp : RespOutcome Unit) : SendEmailOutcome :=
  let req := send_email_request (jsTrim recipients) subject body
  match resp with
  | .ok _ =>
      { requests := [req, mailbox_request "sent"]
        alert := some ("Email sent successfully.", "success")
        reloadMailbox := some "sent" }
  | .httpErr e =>
      { requests := [req]
        alert := some (e.getD "Unable to send email.", "danger")
        reloadMailbox := none }
  | .exn msg =>
      { requests := [req]
        alert := some (msg, "danger")
        reloadMailbox := none }

/-- The reply button's subject prefill on character lists: normalise by
trimming and lowercasing; when the result does not start with `re:`, set the
subject to `` `Re: ${subject}` `` trimmed. -/
def replySubjectChars (subject : List Char) : List Char :=
  if ("re:".data).isPrefixOf (lowerChars (trimChars subject)) then subject
  else trimChars ("Re: ".data ++ subject)

/-- The reply button's subject prefill on strings (`data.subject || ''` has
already produced a string). -/
def replySubject (subject : String) : String :=
  ⟨replySubjectChars subject.data⟩

/-- Effect of one `show_alert(message, type)` call in `inbox.js`. -/
inductive AlertEffect where
  | rendered (msg ty : String)
  | cleared
  | blocking (msg : String)
  | noop
deriving Repr, DecidableEq

/-- `show_alert`: when `#alert-container` is absent, fall back to the
blocking `alert(message)` for a non-empty message and do nothing for an
empty one; when present, clear the region and render the message if it is
non-empty. -/
def show_alert (containerPresent : Bool) (message : String)
    (ty : String) : AlertEffect :=
  if containerPresent then
    if message = "" then .cleared else .rendered message ty
  else
    if message = "" then .noop else .blocking message

end Mail

namespace Feed

open CSFifty

/-- A post object as returned by the feed API. -/
structure PostData where
  id : Nat
  author : String
  content : String
  created_at_display : String
  like_count : Nat
  liked : Bool
  can_edit : Bool
deriving Repr, DecidableEq

/-- The collection read issued by `loadFeed(page)`: the query string carries
the feed kind and the page, plus the username on profile feeds. -/
def loadFeedRequest (feed : String) (profileUsername : String) (page : Nat) :
    Request :=
  let params := "feed=" ++ feed ++ "&page=" ++ toString page
  let params :=
    if feed = "profile" ∧ profileUsername ≠ "" then
      params ++ "&username=" ++ profileUsername
    else params
  { method := "GET"
    url := "/api/posts?" ++ params
    headers := []
    body := Body.empty }

/-- The create request issued by `handleNewPostSubmit` for non-empty content:
a POST carrying the JSON content type and the `X-CSRFToken` header read from
the cookie. -/
def newPostRequest (cookie : String) (content : String) : Request :=
  { method := "POST"
    url := "/api/posts"
    headers :=
      [("Content-Type", "application/json"), ("X-CSRFToken", getCSRFToken cookie)]
    body := Body.contentField content }

/-- The edit-save request issued by the save button handler. -/
def editSaveRequest (cookie : String) (postId : Nat) (content : String) :
    Request :=
  { method := "PUT"
    url := "/api/posts/" ++ toString postId
    headers :=
      [("Content-Type", "application/json"), ("X-CSRFToken", getCSRFToken cookie)]
    body := Body.contentField content }

/-- The like-toggle request issued by `toggleLike`. -/
def toggleLikeRequest (cookie : String) (postId : Nat) : Request :=
  { method := "PUT"
    url := "/api/posts/" ++ toString postId
    headers :=
      [("Content-Type", "application/json"), ("X-CSRFToken", getCSRFToken cookie)]
    body := Body.toggleLikeFlag }

/-- The follow-toggle request issued by `toggleFollow`: a POST with the CSRF
header and no body. -/
def toggleFollowRequest (cookie : String) (profileUsername : String) : Request :=
  { method := "POST"
    url := "/api/profile/" ++ profileUsername ++ "/follow"
    headers :=
      [("Content-Type", "application/json"), ("X-CSRFToken", getCSRFToken cookie)]
    body := Body.empty }

/-- Effect of one `showAlert(message, type)` call in the feed client. -/
inductive FeedAlertEffect where
  | rendered (msg ty : String)
  | cleared
  | noop
deriving Repr, DecidableEq

/-- The feed client's `showAlert`: when `#alert-container` is absent it
returns immediately, dropping the message; when present it clears the region
and renders a non-empty message. -/
def showAlert (containerPresent : Bool) (message : String)
    (ty : String) : FeedAlertEffect :=
  if containerPresent then
    if message = "" then .cleared else .rendered message ty
  else .noop

/-- Observable result of `loadFeed` after its response arrives. -/
structure LoadFeedOutcome where
  requests : List Request
  alert : Option (String × String)
  posts : List PostData
  emptyState : Bool
  totalPages : Nat
deriving Repr, DecidableEq

/-- `loadFeed(page)`: issue the collection GET; on success record
`total_pages || 1` and render `results || []` (empty-state message for an
empty list, one item per post in server order otherwise); on failure clear
the container and surface `data.error || 'Unable to load posts.'`. -/
def loadFeed_result (feed profileUsername : String) (page : Nat)
    (resp : RespOutcome (List PostData × Nat)) : LoadFeedOutcome :=
  match resp with
  | .ok (results, total_pages) =>
      { requests := [loadFeedRequest feed profileUsername page]
        alert := none
        posts := results
        emptyState := results.length = 0
        totalPages := total_pages }
  | .httpErr e =>
      { requests := [loadFeedRequest feed profileUsername page]
        alert := some (e.getD "Unable to load posts.", "danger")
        posts := [], emptyState := false, totalPages := 1 }
  | .exn msg =>
      { requests := [loadFeedRequest feed profileUsername page]
        alert := some (msg, "danger")
        posts := [], emptyState := false, totalPages := 1 }

/-- Observable result of `handleNewPostSubmit`. -/
structure NewPostOutcome where
  requests : List Request
  alert : Option (String × String)
  inputCleared : Bool
deriving Repr, DecidableEq

/-- `handleNewPostSubmit`: trim the textarea; an empty result shows a warning
and issues nothing; otherwise POST the trimmed content and on success clear
the input, show a success alert and reload page 1, while failures surface
`data.error || 'Unable to create post.'`. -/
def handleNewPostSubmit (feed profileUsername cookie : String)
    (input : String) (resp : RespOutcome PostData) : NewPostOutcome :=
  let content := jsTrim input
  if content = "" then
    { requests := []
      alert := some ("Post content cannot be empty.", "warning")
      inputCleared := false }
  else
    match resp with
    | .ok _ =>
        { requests :=
            [newPostRequest cookie content, loadFeedRequest feed profileUsername 1]
          alert := some ("Post published!", "success")
          inputCleared := true }
    | .httpErr e =>
        { requests := [newPostRequest cookie content]
          alert := some (e.getD "Unable to create post.", "danger")
          inputCleared := false }
    | .exn msg =>
        { requests := [newPostRequest cookie content]
          alert := some (msg, "danger")
          inputCleared := false }

/-- The local state of one post's edit mode: the textarea's current value and
the `originalText` captured from `contentPara` when edit mode was entered. -/
structure EditState where
  textarea : String
  original : String
deriving Repr, DecidableEq

/-- The view of one rendered post: the text shown in `.post-content` and the
edit-mode state, `none` when the paragraph is rendered. -/
structure PostView where
  renderedText : String
  editing : Option EditState
deriving Repr, DecidableEq

/-- `enterEditMode`: when the content paragraph is present (the post is not
already in edit mode), capture its text as `originalText` and swap in a
textarea initialised to it; no request is issued. -/
def enterEditMode (pv : PostView) : PostView :=
  match pv.editing with
  | some _ => pv
  | none =>
      { renderedText := pv.renderedText
        editing := some { textarea := pv.renderedText, original := pv.renderedText } }

/-- `exitEditMode`: put the paragraph back with `originalText`, restore the
edit button, and call `loadFeed(currentPage)` — which issues a collection
GET. -/
def exitEditMode (feed profileUsername : String) (currentPage : Nat)
    (es : EditState) : List Request × PostView :=
  ([loadFeedRequest feed profileUsername currentPage],
   { renderedText := es.original, editing := none })

/-- The cancel button handler: exactly `exitEditMode` (when not in edit mode
there is no cancel button, so nothing happens). -/
def cancelClick (feed profileUsername : String) (currentPage : Nat)
    (pv : PostView) : List Request × PostView :=
  match pv.editing with
  | none => ([], pv)
  | some es => exitEditMode feed profileUsername currentPage es

/-- Observable result of the save button handler. -/
structure SaveOutcome where
  requests : List Request
  alert : Option (String × String)
  view : PostView
deriving Repr, DecidableEq

/-- The save button handler: trim the textarea; empty content warns and stays
in edit mode with no request; content equal to `originalText` just exits edit
mode (no PUT); otherwise PUT the trimmed content, on success rendering
`data.content`, showing a success alert and exiting edit mode, and on failure
surfacing `data.error || 'Unable to update post.'` while staying in edit
mode. -/
def saveClick (feed profileUsername cookie : String) (currentPage : Nat)
    (postId : Nat) (pv : PostView) (resp : RespOutcome PostData) : SaveOutcome :=
  match pv.editing with
  | none => { requests := [], alert := none, view := pv }
  | some es =>
    let updatedContent := jsTrim es.textarea
    if updatedContent = "" then
      { requests := []
        alert := some ("Post content cannot be empty.", "warning")
        view := pv }
    else if updatedContent = es.original then
      let (reqs, v) := exitEditMode feed profileUsername currentPage es
      { requests := reqs, alert := none, view := v }
    else
      match resp with
      | .ok data =>
          -- `contentPara.textContent = data.content` is immediately overwritten
          -- by `exitEditMode`, which restores `originalText` before reloading.
          let _afterRender : PostView :=
            { renderedText := data.content, editing := some es }
          let (reqs, v) := exitEditMode feed profileUsername currentPage es
          { requests := editSaveRequest cookie postId updatedContent :: reqs
            alert := some ("Post updated.", "success")
            view := v }
      | .httpErr e =>
          { requests := [editSaveRequest cookie postId updatedContent]
            alert := some (e.getD "Unable to update post.", "danger")
            view := pv }
      | .exn msg =>
          { requests := [editSaveRequest cookie postId updatedContent]
            alert := some (msg, "danger")
            view := pv }

/-- The like button's rendered state: the `.like-count` text and whether the
button carries the pressed (`btn-primary`) class. -/
structure LikeButtonState where
  count : Nat
  pressed : Bool
deriving Repr, DecidableEq

/-- The fields of the like-toggle success body. -/
structure LikeData where
  like_count : Nat
  liked : Bool
deriving Repr, DecidableEq

/-- Observable result of `toggleLike`. -/
structure ToggleLikeOutcome where
  requests : List Request
  alert : Option (String × String)
  button : LikeButtonState
deriving Repr, DecidableEq

/-- `toggleLike`: PUT `{toggle_like: true}`; on success set the count and
pressed class from the response; on failure surface
`data.error || 'Unable to update like.'` and leave the button unchanged. -/
def toggleLike (cookie : String) (postId : Nat) (btn : LikeButtonState)
    (resp : RespOutcome LikeData) : ToggleLikeOutcome :=
  match resp with
  | .ok data =>
      { requests := [toggleLikeRequest cookie postId]
        alert := none
        button := { count := data.like_count, pressed := data.liked } }
  | .httpErr e =>
      { requests := [toggleLikeRequest cookie postId]
        alert := some (e.getD "Unable to update like.", "danger")
        button := btn }
  | .exn msg =>
      { requests := [toggleLikeRequest cookie postId]
        alert := some (msg, "danger")
        button := btn }

/-- The follow button's rendered state: its label and `data-following`
attribute. -/
structure FollowButtonState where
  label : String
  following : Bool
deriving Repr, DecidableEq

/-- The fields of the follow-toggle success body. -/
structure FollowData where
  is_following : Bool
  followers : Nat
deriving Repr, DecidableEq

/-- Observable result of `toggleFollow`. -/
structure ToggleFollowOutcome where
  requests : List Request
  alert : Option (String × String)
  button : FollowButtonState
deriving Repr, DecidableEq

/-- `toggleFollow`: POST the follow toggle; on success set the label from
`is_following`, update the follower count, show a success alert and reload
page 1; on failure surface `data.error || 'Unable to update follow state.'`
and leave the button unchanged. -/
def toggleFollow (feed profileUsername cookie : String)
    (btn : FollowButtonState) (resp : RespOutcome FollowData) :
    ToggleFollowOutcome :=
  match resp with
  | .ok data =>
      { requests :=
          [toggleFollowRequest cookie profileUsername,
           loadFeedRequest feed profileUsername 1]
        alert :=
          some (if data.is_following then "Now following user." else "Unfollowed user.",
                "success")
        button :=
          { label := if data.is_following then "Unfollow" else "Follow"
            following := data.is_following } }
  | .httpErr e =>
      { requests := [toggleFollowRequest cookie profileUsername]
        alert := some (e.getD "Unable to update follow state.", "danger")
        button := btn }
  | .exn msg =>
      { requests := [toggleFollowRequest cookie profileUsername]
        alert := some (msg, "danger")
        button := btn }

end Feed

namespace Dashboard

open CSFifty

/-- The fields of the summary endpoint's JSON body; absent fields are `none`
(the script guards each numeric field with `|| 0`). -/
structure SummaryData where
  primary_currency : Option String
  total_accounts : Option Int
  total_transactions : Option Int
  total_balance : Option Int
  monthly_net : Option Int
  monthly_income : Option Int
  monthly_expense : Option Int
deriving Repr, DecidableEq

/-- Model of `new Intl.NumberFormat(undefined, {style: 'currency', currency:
code, ...}).format`: an injective rendering that records the currency code
used. -/
def formatCurrency (code : String) (amount : Int) : String :=
  code ++ " " ++ toString amount

/-- Model of the plain `new Intl.NumberFormat().format`. -/
def formatNumber (n : Int) : String :=
  toString n

/-- The summary DOM fields written by `updateSummary`'s success callback. -/
structure RenderedSummary where
  accountsText : String
  transactionsText : String
  balanceCurrencyAttr : String
  balanceText : String
  netText : String
  breakdownIncomeText : String
  breakdownExpenseText : String
deriving Repr, DecidableEq

/-- The body of `updateSummary`'s `.then` callback.  `currencyCode` and
`currencyFormatter` are declared `const` at module scope, so when the
response reports a non-empty `primary_currency` different from
`currencyCode`, the assignment `currencyCode = data.primary_currency` throws
a `TypeError` before any field is written; otherwise every summary field is
rendered with the module-scope formatter. -/
def updateSummary_onData (currencyCode : String) (data : SummaryData) :
    Except String RenderedSummary :=
  let pc := data.primary_currency.getD ""
  if pc ≠ "" ∧ pc ≠ currencyCode then
    Except.error "Assignment to constant variable."
  else
    Except.ok
      { accountsText := formatNumber (data.total_accounts.getD 0)
        transactionsText := formatNumber (data.total_transactions.getD 0)
        balanceCurrencyAttr := currencyCode
        balanceText := formatCurrency currencyCode (data.total_balance.getD 0)
        netText := formatCurrency currencyCode (data.monthly_net.getD 0)
        breakdownIncomeText :=
          "+" ++ formatCurrency currencyCode (data.monthly_income.getD 0)
        breakdownExpenseText :=
          "-" ++ formatCurrency currencyCode (data.monthly_expense.getD 0) }

/-- Outcome of one dashboard `fetchJSON` round-trip: success status with
parsed data, non-success status (whose body `fetchJSON` never reads), or a
transport/parse failure with a message. -/
inductive DashResp (α : Type) where
  | ok (data : α)
  | httpStatus (status : Nat) (errorField : Option String)
  | exn (msg : String)
deriving Repr, DecidableEq

/-- `fetchJSON`: a non-success status throws
`` `Request failed with status ${response.status}` `` without reading the
body, so a server-provided `error` field is never surfaced. -/
def fetchJSON_outcome {α : Type} : DashResp α → Except String α
  | .ok data => Except.ok data
  | .httpStatus status _ =>
      Except.error ("Request failed with status " ++ toString status)
  | .exn msg => Except.error msg

/-- Observable result of `updateSummary`: the rendered fields (when any) and
the console-error line (when any).  Every failure — transport, status, or
the `TypeError` from the `const` reassignment — lands in the `.catch`, which
only logs `console.error('Unable to load dashboard summary', error)`; no
user-facing alert exists on this page. -/
def updateSummary_result (currencyCode : String) (resp : DashResp SummaryData) :
    Option RenderedSummary × Option (String × String) :=
  match fetchJSON_outcome resp with
  | Except.error msg => (none, some ("Unable to load dashboard summary", msg))
  | Except.ok data =>
      match updateSummary_onData currencyCode data with
      | Except.error msg => (none, some ("Unable to load dashboard summary", msg))
      | Except.ok rendered => (some rendered, none)

end Dashboard

namespace CSFifty

theorem trimRight_idem (l : List Char) : trimRight (trimRight l) = trimRight l := by
  induction l with
  | nil => rfl
  | cons c l ih =>
    rw [trimRight]
    cases h : trimRight l with
    | nil =>
      by_cases hc : isJsWS c
      · simp [hc, trimRight]
      · simp [hc, trimRight]
    | cons a r =>
      have ha : trimRight (a :: r) = a :: r := by
        rw [← h]; rw [ih]
      rw [trimRight, ha]

theorem trimRight_colon (l : List Char) : ∃ t, trimRight (':' :: l) = ':' :: t := by
  rw [trimRight]
  cases h : trimRight l with
  | nil => exact ⟨[], by simp [h]; decide⟩
  | cons a r => exact ⟨a :: r, rfl⟩

theorem trimLeft_cons_of_not_ws {c : Char} (l : List Char) (hc : isJsWS c = false) :
    trimLeft (c :: l) = c :: l := by
  simp [trimLeft, hc]

theorem trimChars_fixed_of_cons {l : List Char} {c : Char} {t : List Char}
    (hc : isJsWS c = false) (h : trimChars l = c :: t) :
    trimChars (trimChars l) = trimChars l := by
  show trimRight (trimLeft (trimChars l)) = trimChars l
  rw [h, trimLeft_cons_of_not_ws _ hc, ← h]
  show trimRight (trimRight (trimLeft l)) = _
  rw [trimRight_idem]
  rfl

end CSFifty

namespace Mail

open CSFifty

theorem trim_reply_marker (s : List Char) :
    ∃ t, trimChars ("Re: ".data ++ s) = 'R' :: 'e' :: ':' :: t := by
  obtain ⟨t, ht⟩ := trimRight_colon (' ' :: s)
  refine ⟨t, ?_⟩
  have hl : trimLeft ("Re: ".data ++ s) = 'R' :: 'e' :: ':' :: ' ' :: s := by
    have hd : "Re: ".data ++ s = 'R' :: 'e' :: ':' :: ' ' :: s := rfl
    rw [hd]
    exact trimLeft_cons_of_not_ws _ (by decide)
  show trimRight (trimLeft ("Re: ".data ++ s)) = _
  rw [hl, trimRight, trimRight, ht]

theorem replySubjectChars_idem (s : List Char) :
    replySubjectChars (replySubjectChars s) = replySubjectChars s := by
  by_cases h : ("re:".data).isPrefixOf (lowerChars (trimChars s)) = true
  · simp [replySubjectChars, h]
  · obtain ⟨t, ht⟩ := trim_reply_marker s
    have hidem : trimChars (trimChars ("Re: ".data ++ s)) = trimChars ("Re: ".data ++ s) :=
      trimChars_fixed_of_cons (by decide) ht
    have hcond : ("re:".data).isPrefixOf
        (lowerChars (trimChars (trimChars ("Re: ".data ++ s)))) = true := by
      rw [hidem, ht]
      simp [lowerChars, List.isPrefixOf]
    have hs : replySubjectChars s = trimChars ("Re: ".data ++ s) := by
      rw [replySubjectChars, if_neg h]
    rw [hs, replySubjectChars, if_pos hcond]

end Mail

open CSFifty

/-- C9: the reply-subject construction is idempotent: a subject that already
starts with `re:` after trimming and lowercasing is used unchanged, and any
other subject receives the `Re: ` marker exactly once, so replying to a reply
never stacks a second one. -/
theorem c9_reply_subject_idempotent (subject : String) :
    (("re:".data).isPrefixOf (lowerChars (trimChars subject.data)) = true →
        Mail.replySubject subject = subject)
    ∧ (("re:".data).isPrefixOf (lowerChars (trimChars subject.data)) = false →
        Mail.replySubject subject = ⟨trimChars ("Re: ".data ++ subject.data)⟩)
    ∧ Mail.replySubject (Mail.replySubject subject) = Mail.replySubject subject := by
  refine ⟨?_, ?_, ?_⟩
  · intro h
    show (⟨Mail.replySubjectChars subject.data⟩ : String) = subject
    rw [Mail.replySubjectChars, if_pos h]
  · intro h
    show (⟨Mail.replySubjectChars subject.data⟩ : String) = _
    rw [Mail.replySubjectChars, if_neg (by rw [h]; exact Bool.false_ne_true)]
  · show (⟨Mail.replySubjectChars (Mail.replySubject subject).data⟩ : String) = _
    have hd : (Mail.replySubject subject).data = Mail.replySubjectChars subject.data := rfl
    rw [hd, Mail.replySubjectChars_idem]
    rfl

/-- C9 witness: a subject already carrying the marker is reused unchanged, a
fresh subject receives it once, and both are fixed points of a second
application. -/
theorem c9_reply_subject_witness :
    ("re:".data).isPrefixOf (lowerChars (trimChars "RE: hello".data)) = true
    ∧ Mail.replySubject "RE: hello" = "RE: hello"
    ∧ ("re:".data).isPrefixOf (lowerChars (trimChars "hello".data)) = false
    ∧ Mail.replySubject "hello" = "Re: hello"
    ∧ Mail.replySubject (Mail.replySubject "hello") = Mail.replySubject "hello" := by
  have h1 := (c9_reply_subject_idempotent "RE: hello").1 (by decide)
  have h2 := (c9_reply_subject_idempotent "hello").2.1 (by decide)
  have h3 := (c9_reply_subject_idempotent "hello").2.2
  exact ⟨by decide, h1, by decide, by rw [h2]; decide, h3⟩

/-- C1 counterexample: the mail client's send request carries no headers at
all, in particular no anti-forgery header derived from the cookie, so the
claim that every mutating request carries one is false. -/
theorem c1_csrf_counterexample :
    (Mail.send_email_request "a@x.com" "Hi" "Body").headers = []
    ∧ ¬ hasCSRFHeader (Mail.send_email_request "a@x.com" "Hi" "Body")
        (getCSRFToken "csrftoken=abc123") := by
  exact ⟨rfl, by decide⟩

/-- C1 (amended): every feed-client mutating request (post create, edit save,
like toggle, follow toggle) carries the `X-CSRFToken` header whose value is
read from the cookie, while the mail client's three mutating requests (send,
mark-read, archive-toggle) are issued with no headers at all. -/
theorem c1_csrf_headers (cookie content username r s b : String)
    (postId emailId : Nat) (archived : Bool) :
    hasCSRFHeader (Feed.newPostRequest cookie content) (getCSRFToken cookie)
    ∧ hasCSRFHeader (Feed.editSaveRequest cookie postId content) (getCSRFToken cookie)
    ∧ hasCSRFHeader (Feed.toggleLikeRequest cookie postId) (getCSRFToken cookie)
    ∧ hasCSRFHeader (Feed.toggleFollowRequest cookie username) (getCSRFToken cookie)
    ∧ (Mail.send_email_request r s b).headers = []
    ∧ (Mail.mark_read_request emailId).headers = []
    ∧ (Mail.toggle_archive_request emailId archived).headers = [] := by
  refine ⟨?_, ?_, ?_, ?_, rfl, rfl, rfl⟩ <;>
    simp [hasCSRFHeader, Feed.newPostRequest, Feed.editSaveRequest,
      Feed.toggleLikeRequest, Feed.toggleFollowRequest]

/-- C2 counterexample: cancelling right after entering edit mode does restore
the original text, but it issues a network request — `exitEditMode` calls
`loadFeed(currentPage)` — so the no-request half of the claim is false. -/
theorem c2_cancel_counterexample :
    (Feed.cancelClick "all" "" 1 (Feed.enterEditMode ⟨"hello", none⟩)).1
      = [Feed.loadFeedRequest "all" "" 1]
    ∧ [Feed.loadFeedRequest "all" "" 1] ≠ ([] : List Request) := by
  exact ⟨rfl, by decide⟩

/-- C2 (amended): entering edit mode and cancelling restores exactly the
original rendered text and leaves edit mode, and while the cancel path issues
no mutating request, it does issue one read request — the feed reload
triggered by `exitEditMode`. -/
theorem c2_edit_cancel_roundtrip (feed user t : String) (page : Nat) :
    Feed.cancelClick feed user page (Feed.enterEditMode ⟨t, none⟩)
      = ([Feed.loadFeedRequest feed user page],
         { renderedText := t, editing := none })
    ∧ (Feed.loadFeedRequest feed user page).method = "GET" := by
  exact ⟨rfl, rfl⟩

/-- C3: the claim is the code's evident intent, but `currencyCode` and
`currencyFormatter` are declared `const`; when the summary reports a
different non-empty primary currency the reassignment throws before any
field is rendered, and the catch only logs to the console.  When the
reported currency matches the assumed one, rendering proceeds with that
code. -/
theorem c3_const_reassignment_bug :
    Dashboard.updateSummary_result "USD"
      (.ok { primary_currency := some "EUR", total_accounts := some 2,
             total_transactions := some 5, total_balance := some 100,
             monthly_net := some 10, monthly_income := some 20,
             monthly_expense := some 10 })
      = (none, some ("Unable to load dashboard summary",
          "Assignment to constant variable."))
    ∧ Dashboard.updateSummary_result "USD"
      (.ok { primary_currency := some "USD", total_accounts := some 2,
             total_transactions := some 5, total_balance := some 100,
             monthly_net := some 10, monthly_income := some 20,
             monthly_expense := some 10 })
      = (some { accountsText := "2", transactionsText := "5",
                balanceCurrencyAttr := "USD", balanceText := "USD 100",
                netText := "USD 10", breakdownIncomeText := "+USD 20",
                breakdownExpenseText := "-USD 10" }, none) := by
  constructor
  · decide
  · decide

/-- C4: a mutation request that receives a non-success response or fails in
transport leaves the previously rendered view state unchanged — the archive
toggle triggers no mailbox reload, the like button keeps its count and
pressed state, the post keeps its text and stays in edit mode, the follow
button keeps its label — and each failure surfaces a danger alert. -/
theorem c4_failed_mutation_preserves_viewstate
    (emailId postId page : Nat) (archived : Bool)
    (cookie feed user : String) (btn : Feed.LikeButtonState)
    (fbtn : Feed.FollowButtonState) (rt : String) (es : Feed.EditState)
    (e : Option String) (msg : String)
    (h1 : jsTrim es.textarea ≠ "") (h2 : jsTrim es.textarea ≠ es.original) :
    ((Mail.toggle_archive_result emailId archived (.httpErr e)).reloadMailbox = none
      ∧ (Mail.toggle_archive_result emailId archived (.httpErr e)).alert
          = some ("Unable to update archive state.", "danger"))
    ∧ ((Mail.toggle_archive_result emailId archived (.exn msg)).reloadMailbox = none
      ∧ (Mail.toggle_archive_result emailId archived (.exn msg)).alert
          = some (msg, "danger"))
    ∧ ((Feed.toggleLike cookie postId btn (.httpErr e)).button = btn
      ∧ (Feed.toggleLike cookie postId btn (.httpErr e)).alert
          = some (e.getD "Unable to update like.", "danger"))
    ∧ ((Feed.toggleLike cookie postId btn (.exn msg)).button = btn
      ∧ (Feed.toggleLike cookie postId btn (.exn msg)).alert = some (msg, "danger"))
    ∧ ((Feed.saveClick feed user cookie page postId ⟨rt, some es⟩ (.httpErr e)).view
          = ⟨rt, some es⟩
      ∧ (Feed.saveClick feed user cookie page postId ⟨rt, some es⟩ (.httpErr e)).alert
          = some (e.getD "Unable to update post.", "danger"))
    ∧ ((Feed.saveClick feed user cookie page postId ⟨rt, some es⟩ (.exn msg)).view
          = ⟨rt, some es⟩
      ∧ (Feed.saveClick feed user cookie page postId ⟨rt, some es⟩ (.exn msg)).alert
          = some (msg, "danger"))
    ∧ ((Feed.toggleFollow feed user cookie fbtn (.httpErr e)).button = fbtn
      ∧ (Feed.toggleFollow feed user cookie fbtn (.httpErr e)).alert
          = some (e.getD "Unable to update follow state.", "danger"))
    ∧ ((Feed.toggleFollow feed user cookie fbtn (.exn msg)).button = fbtn
      ∧ (Feed.toggleFollow feed user cookie fbtn (.exn msg)).alert
          = some (msg, "danger")) := by
  refine ⟨⟨rfl, rfl⟩, ⟨rfl, rfl⟩, ⟨rfl, rfl⟩, ⟨rfl, rfl⟩, ?_, ?_, ⟨rfl, rfl⟩, ⟨rfl, rfl⟩⟩ <;>
    simp [Feed.saveClick, h1, h2]

/-- C4 witness: the archive toggle hit by a 500 and the like toggle hit by a
transport failure leave the rendered state exactly as it was. -/
theorem c4_failed_mutation_witness :
    jsTrim "updated text" ≠ "" ∧ jsTrim "updated text" ≠ "old text"
    ∧ (Mail.toggle_archive_result 1 true (.httpErr none)).reloadMailbox = none
    ∧ (Feed.toggleLike "csrftoken=t" 7 ⟨3, false⟩ (.exn "Failed to fetch")).button
        = ⟨3, false⟩
    ∧ (Feed.saveClick "all" "" "csrftoken=t" 1 7
        ⟨"old text", some ⟨"updated text", "old text"⟩⟩ (.httpErr none)).view
        = ⟨"old text", some ⟨"updated text", "old text"⟩⟩ := by
  have h := c4_failed_mutation_preserves_viewstate 1 7 1 true "csrftoken=t" "all" ""
    ⟨3, false⟩ ⟨"Follow", false⟩ "old text" ⟨"updated text", "old text"⟩
    none "Failed to fetch" (by decide) (by decide)
  exact ⟨by decide, by decide, h.1.1, h.2.2.2.1.1, h.2.2.2.2.1.1⟩

/-- C5 counterexample: the feed client's `showAlert` silently drops a
non-empty message when the alert region is absent instead of raising a
blocking notification. -/
theorem c5_feed_alert_counterexample :
    Feed.showAlert false "Unable to load posts." "danger" = Feed.FeedAlertEffect.noop := by
  rfl

/-- C5 (amended): when the dedicated alert region is absent, the mail
client's `show_alert` falls back to a blocking notification for every
non-empty message, but the feed client's `showAlert` returns without any
effect, dropping the message. -/
theorem c5_alert_fallback (msg ty : String) :
    (msg ≠ "" → Mail.show_alert false msg ty = Mail.AlertEffect.blocking msg)
    ∧ Feed.showAlert false msg ty = Feed.FeedAlertEffect.noop := by
  constructor
  · intro h
    simp [Mail.show_alert, h]
  · rfl

/-- C5 witness: a concrete non-empty message is blocked by the mail client
and dropped by the feed client. -/
theorem c5_alert_fallback_witness :
    ("Unable to load mailbox." ≠ "" →
        Mail.show_alert false "Unable to load mailbox." "info"
          = Mail.AlertEffect.blocking "Unable to load mailbox.")
    ∧ Feed.showAlert false "Unable to load mailbox." "info"
        = Feed.FeedAlertEffect.noop :=
  c5_alert_fallback "Unable to load mailbox." "info"

/-- C6: after a successful detail load the read-marking PUT is issued exactly
when the fetched email's read flag is false, and `mark_read` surfaces no
alert whatever its own request's outcome. -/
theorem c6_mark_read_iff_unread (emailId : Nat) (data : Mail.EmailData)
    (resp : RespOutcome Unit) :
    (Mail.mark_read_request emailId ∈ (Mail.view_email_result emailId (.ok data)).requests
        ↔ data.read = false)
    ∧ (Mail.mark_read_result emailId resp).2 = none := by
  constructor
  · cases h : data.read <;>
      simp [Mail.view_email_result, h, Mail.mark_read_request, Mail.email_request]
  · rfl

/-- C6 witness: loading an already-read email issues no read-marking PUT,
loading an unread one does, and a failing `mark_read` stays silent. -/
theorem c6_mark_read_witness :
    (Mail.mark_read_request 1 ∈ (Mail.view_email_result 1
        (.ok { id := 1, sender := "a@x.com", recipients := ["b@x.com"],
               subject := "Hi", body := "Hello", timestamp := "t",
               read := true, archived := false })).requests
      ↔ (true = false))
    ∧ (Mail.mark_read_result 1 (.httpErr none)).2 = none :=
  c6_mark_read_iff_unread 1
    { id := 1, sender := "a@x.com", recipients := ["b@x.com"], subject := "Hi",
      body := "Hello", timestamp := "t", read := true, archived := false }
    (.httpErr none)

/-- C7 counterexample: `toggle_archive` never parses the response body, so a
server-provided `error` field is ignored and the hardcoded fallback is
surfaced even when the field is present — the claim fails already inside the
mail client. -/
theorem c7_error_field_counterexample :
    (Mail.toggle_archive_result 1 true (.httpErr (some "Mailbox is locked."))).alert
      = some ("Unable to update archive state.", "danger")
    ∧ "Unable to update archive state." ≠ "Mailbox is locked." := by
  exact ⟨rfl, by decide⟩

/-- C7 (amended): the mail mailbox/send/detail handlers and every feed
handler surface the body's `error` field when present and a per-action
fallback otherwise; `toggle_archive` however always surfaces its hardcoded
message, and the dashboard's `fetchJSON` builds a status-text message without
reading the body and delivers it only to the console, never to the user. -/
theorem c7_error_surfacing (mb r s b cookie feed user input rt : String)
    (page postId emailId status : Nat) (e : Option String)
    (btn : Feed.LikeButtonState) (fbtn : Feed.FollowButtonState)
    (es : Feed.EditState)
    (hinput : jsTrim input ≠ "")
    (hes1 : jsTrim es.textarea ≠ "") (hes2 : jsTrim es.textarea ≠ es.original) :
    (Mail.load_mailbox_result mb (.httpErr e)).alert
      = some (e.getD "Unable to load mailbox.", "info")
    ∧ (Mail.send_email_result r s b (.httpErr e)).alert
      = some (e.getD "Unable to send email.", "danger")
    ∧ (Mail.view_email_result emailId (.httpErr e)).alert
      = some (e.getD "Unable to load email.", "danger")
    ∧ (Feed.loadFeed_result feed user page (.httpErr e)).alert
      = some (e.getD "Unable to load posts.", "danger")
    ∧ (Feed.handleNewPostSubmit feed user cookie input (.httpErr e)).alert
      = some (e.getD "Unable to create post.", "danger")
    ∧ (Feed.saveClick feed user cookie page postId ⟨rt, some es⟩ (.httpErr e)).alert
      = some (e.getD "Unable to update post.", "danger")
    ∧ (Feed.toggleLike cookie postId btn (.httpErr e)).alert
      = some (e.getD "Unable to update like.", "danger")
    ∧ (Feed.toggleFollow feed user cookie fbtn (.httpErr e)).alert
      = some (e.getD "Unable to update follow state.", "danger")
    ∧ (Mail.toggle_archive_result emailId true (.httpErr e)).alert
      = some ("Unable to update archive state.", "danger")
    ∧ Dashboard.fetchJSON_outcome
        (Dashboard.DashResp.httpStatus status e : Dashboard.DashResp Unit)
      = Except.error ("Request failed with status " ++ toString status)
    ∧ (Dashboard.updateSummary_result "USD" (.httpStatus status e)).1 = none
    ∧ (Dashboard.updateSummary_result "USD" (.httpStatus status e)).2
      = some ("Unable to load dashboard summary",
              "Request failed with status " ++ toString status) := by
  refine ⟨rfl, rfl, rfl, rfl, ?_, ?_, rfl, rfl, rfl, rfl, rfl, rfl⟩
  · simp [Feed.handleNewPostSubmit, hinput]
  · simp [Feed.saveClick, hes1, hes2]

/-- C7 witness: concrete failing responses with and without the `error`
field, at concrete non-empty form inputs. -/
theorem c7_error_surfacing_witness :
    jsTrim "new post" ≠ "" ∧ jsTrim "edited" ≠ ""
    ∧ jsTrim "edited" ≠ "original"
    ∧ (Mail.load_mailbox_result "inbox" (.httpErr (some "Invalid mailbox."))).alert
      = some ((some "Invalid mailbox.").getD "Unable to load mailbox.", "info")
    ∧ (Feed.handleNewPostSubmit "all" "" "csrftoken=t" "new post"
        (.httpErr (some "Invalid mailbox."))).alert
      = some ((some "Invalid mailbox.").getD "Unable to create post.", "danger")
    ∧ (Dashboard.updateSummary_result "USD" (.httpStatus 500 (some "Invalid mailbox."))).2
      = some ("Unable to load dashboard summary",
              "Request failed with status " ++ toString 500) := by
  have h := c7_error_surfacing "inbox" "a@x.com" "Hi" "Body" "csrftoken=t" "all" ""
    "new post" "original" 1 7 1 500 (some "Invalid mailbox.") ⟨3, false⟩
    ⟨"Follow", false⟩ ⟨"edited", "original"⟩ (by decide) (by decide) (by decide)
  exact ⟨by decide, by decide, by decide, h.1, h.2.2.2.2.1, h.2.2.2.2.2.2.2.2.2.2.2⟩

/-- C8: a new-post submission whose content trims to the empty string issues
no request and shows a warning; non-empty trimmed content always issues the
create request. -/
theorem c8_empty_post_blocked (feed user cookie input : String)
    (resp : RespOutcome Feed.PostData) :
    (jsTrim input = "" →
        Feed.handleNewPostSubmit feed user cookie input resp
          = { requests := []
              alert := some ("Post content cannot be empty.", "warning")
              inputCleared := false })
    ∧ (jsTrim input ≠ "" →
        Feed.newPostRequest cookie (jsTrim input)
          ∈ (Feed.handleNewPostSubmit feed user cookie input resp).requests) := by
  constructor
  · intro h
    simp [Feed.handleNewPostSubmit, h]
  · intro h
    cases resp <;> simp [Feed.handleNewPostSubmit, h]

/-- C8 witness: a whitespace-only submission is blocked locally, a non-empty
one issues its POST. -/
theorem c8_empty_post_blocked_witness :
    (jsTrim "   " = "" →
        Feed.handleNewPostSubmit "all" "" "csrftoken=t" "   "
            (.httpErr none)
          = { requests := []
              alert := some ("Post content cannot be empty.", "warning")
              inputCleared := false })
    ∧ (jsTrim "   " ≠ "" →
        Feed.newPostRequest "csrftoken=t" (jsTrim "   ")
          ∈ (Feed.handleNewPostSubmit "all" "" "csrftoken=t" "   "
              (.httpErr none)).requests) :=
  c8_empty_post_blocked "all" "" "csrftoken=t" "   " (.httpErr none)

/-- C10 counterexample: saving with trimmed content equal to the original
text does exit edit mode restoring the original, but it issues a network
request — the feed reload from `exitEditMode` — so the no-request half of the
claim is false. -/
theorem c10_save_counterexample :
    Feed.saveClick "all" "" "csrftoken=t" 1 7
        ⟨"hello", some ⟨" hello ", "hello"⟩⟩ (.exn "network unreachable")
      = { requests := [Feed.loadFeedRequest "all" "" 1]
          alert := none
          view := { renderedText := "hello", editing := none } }
    ∧ [Feed.loadFeedRequest "all" "" 1] ≠ ([] : List Request) := by
  exact ⟨by decide, by decide⟩

/-- C10 (amended): saving with trimmed content equal to the original issues
no save (PUT) request — only the feed-reload GET from `exitEditMode` — and
exits edit mode restoring the original text; saving with content that trims
to empty issues no request at all and shows a warning while staying in edit
mode. -/
theorem c10_save_noop_paths (feed user cookie rt : String) (page postId : Nat)
    (es : Feed.EditState) (resp : RespOutcome Feed.PostData) :
    (jsTrim es.textarea = es.original → jsTrim es.textarea ≠ "" →
        Feed.saveClick feed user cookie page postId ⟨rt, some es⟩ resp
          = { requests := [Feed.loadFeedRequest feed user page]
              alert := none
              view := { renderedText := es.original, editing := none } }
        ∧ (Feed.loadFeedRequest feed user page).method = "GET")
    ∧ (jsTrim es.textarea = "" →
        Feed.saveClick feed user cookie page postId ⟨rt, some es⟩ resp
          = { requests := []
              alert := some ("Post content cannot be empty.", "warning")
              view := ⟨rt, some es⟩ }) := by
  constructor
  · intro h1 h2
    refine ⟨?_, rfl⟩
    have h2' : ¬ (jsTrim es.textarea = "") := h2
    simp only [Feed.saveClick, Feed.exitEditMode, if_neg h2', if_pos h1]
  · intro h
    simp [Feed.saveClick, h]

/-- C10 witness: a save whose textarea trims back to the original text only
reloads the feed, and a whitespace-only save is blocked with a warning. -/
theorem c10_save_noop_witness :
    (jsTrim " hello " = "hello" → jsTrim " hello " ≠ "" →
        Feed.saveClick "all" "" "csrftoken=t" 1 7
            ⟨"hello", some ⟨" hello ", "hello"⟩⟩ (.httpErr none)
          = { requests := [Feed.loadFeedRequest "all" "" 1]
              alert := none
              view := { renderedText := "hello", editing := none } }
        ∧ (Feed.loadFeedRequest "all" "" 1).method = "GET")
    ∧ (jsTrim " hello " = "" →
        Feed.saveClick "all" "" "csrftoken=t" 1 7
            ⟨"hello", some ⟨" hello ", "hello"⟩⟩ (.httpErr none)
          = { requests := []
              alert := some ("Post content cannot be empty.", "warning")
              view := ⟨"hello", some ⟨" hello ", "hello"⟩⟩ }) :=
  c10_save_noop_paths "all" "" "csrftoken=t" "hello" 1 7
    ⟨" hello ", "hello"⟩ (.httpErr none)
